import Mathlib

/-!
Shallow embedding of the domovoy runtime core (Home Assistant automation
engine) and proofs about its behaviour.

The definitions mirror the Python sources:
  * `domovoy/plugins/hass/core.py` — entity state cache (`HassCore`),
    `EntityState`, `setup`, `__process_state_changed`,
    `__all_events_callback`;
  * `domovoy/plugins/hass/api.py` — websocket client (`HassWebsocketApi`):
    command send, receiver loop, disconnect cleanup;
  * `domovoy/plugins/hass/__init__.py` — facade (`call_service` retry,
    `wait_for_state_to_be`);
  * `domovoy/plugins/callbacks/__init__.py` — listener gating, `run_at`,
    `run_every`;
  * `domovoy/applications/types.py` — `Interval`;
  * `domovoy/core/engine/engine.py` — app lifecycle status machine.

Wall-clock instants and durations are modelled as integer counts of
milliseconds.  Python dictionaries are modelled as association lists.
-/

deriving instance DecidableEq for Except

namespace Domovoy

/-- Entity ids (`EntityID` in `hass/types.py`) compare by their string form. -/
abbrev EntityID := String

/-- Primitive Home Assistant values (`PrimitiveHassValue` and friends in
`hass/types.py`).  Timestamps are carried as millisecond ticks. -/
inductive HassValue where
  | str (s : String)
  | int (n : Int)
  | bool (b : Bool)
  | null
deriving DecidableEq, Repr

/-- `Interval` from `domovoy/applications/types.py`.  The `milliseconds`
field is a float in the source; it is modelled as an integral count of
milliseconds, which all the behaviour verified here stays inside. -/
structure Interval where
  days : Int := 0
  hours : Int := 0
  minutes : Int := 0
  seconds : Int := 0
  milliseconds : Int := 0
deriving DecidableEq, Repr

/-- `Interval.is_valid`: true when at least one field is non-zero. -/
def Interval.is_valid (i : Interval) : Bool :=
  i.days != 0 || i.hours != 0 || i.minutes != 0 || i.seconds != 0 || i.milliseconds != 0

/-- `Interval.to_timedelta`, expressed as a number of milliseconds. -/
def Interval.toTimedeltaMs (i : Interval) : Int :=
  (((i.days * 24 + i.hours) * 60 + i.minutes) * 60 + i.seconds) * 1000 + i.milliseconds

/-- `Interval.total_seconds`. -/
def Interval.totalSeconds (i : Interval) : ℚ :=
  ((((i.days * 24 + i.hours) * 60 + i.minutes) * 60 + i.seconds : Int) : ℚ) + (i.milliseconds : ℚ) / 1000

/-- `EntityState` from `hass/core.py` (frozen dataclass).  `last_changed` and
`last_updated` are millisecond instants. -/
structure EntityState where
  entity_id : EntityID
  state : HassValue
  last_changed : Int
  last_updated : Int
  attributes : List (String × HassValue) := []
deriving DecidableEq, Repr

/-- `EntityState.has_been_in_state_for_at_least` with the current instant
passed explicitly.  Raises (returns `.error`) on an all-zero interval. -/
def EntityState.hasBeenInStateForAtLeast (st : EntityState)
    (targetStates : List HassValue) (interval : Interval) (now : Int) :
    Except String Bool :=
  if ¬ interval.is_valid then
    .error "Hours, minutes and seconds cannot be all zero"
  else if st.state ∉ targetStates then
    .ok false
  else
    .ok (decide (now ≥ st.last_changed + interval.toTimedeltaMs))

/-- `EntityState.has_been_in_current_state_for_at_least`: the singleton list
mirrors the wrapping of a non-sequence argument in the source. -/
def EntityState.hasBeenInCurrentStateForAtLeast (st : EntityState)
    (interval : Interval) (now : Int) : Except String Bool :=
  st.hasBeenInStateForAtLeast [st.state] interval now

/-- The entity state cache of `HassCore`: a dict `EntityID -> EntityState`. -/
abbrev EntityCache := List (EntityID × EntityState)

/-- Dictionary lookup (`dict.get(key, None)`). -/
def cacheGet (c : EntityCache) (eid : EntityID) : Option EntityState :=
  (c.find? (fun p => p.1 = eid)).map Prod.snd

/-- Dictionary assignment (`cache[eid] = st`), the body of
`HassCore.__update_entity_state_cache`. -/
def cacheSet : EntityCache → EntityID → EntityState → EntityCache
  | [], eid, st => [(eid, st)]
  | (k, v) :: rest, eid, st =>
      if k = eid then (k, st) :: rest else (k, v) :: cacheSet rest eid st

/-- Unguarded `dict.pop(key)` as used by `HassCore.__pop_entity_state_cache`:
`none` models the `KeyError` raised on a missing key. -/
def cachePop : EntityCache → EntityID → Option EntityCache
  | [], _ => none
  | (k, v) :: rest, eid =>
      if k = eid then some rest
      else (cachePop rest eid).map (fun r => (k, v) :: r)

/-- The `event_data` payload of a `state_changed` event, with the state
fields already parsed (`EntityState.from_dict`). -/
structure StateChangedData where
  entity_id : EntityID
  old_state : Option EntityState := none
  new_state : Option EntityState := none
deriving DecidableEq, Repr

/-- Errors escaping `HassCore.__process_state_changed`. -/
inductive CacheError where
  | keyError (eid : EntityID)
deriving DecidableEq, Repr

/-- `HassCore.__process_state_changed`: evict on `new_state = None`
(an unguarded pop), insert a previously unknown entity, drop stale and
equal-timestamp updates, replace on a strictly newer `last_updated`. -/
def processStateChanged (cache : EntityCache) (ev : StateChangedData) :
    Except CacheError EntityCache :=
  match ev.new_state with
  | none =>
      match cachePop cache ev.entity_id with
      | none => .error (.keyError ev.entity_id)
      | some c => .ok c
  | some newEntityData =>
      match cacheGet cache ev.entity_id with
      | none => .ok (cacheSet cache ev.entity_id newEntityData)
      | some old =>
          if old.last_updated > newEntityData.last_updated then
            .ok cache
          else if old.last_updated = newEntityData.last_updated then
            .ok cache
          else
            .ok (cacheSet cache ev.entity_id newEntityData)

/-- The bulk load in `HassCore.setup`: every `get_states` snapshot is written
through `__update_entity_state_cache` with no `last_updated` comparison. -/
def setupLoadStates (cache : EntityCache) (states : List EntityState) :
    EntityCache :=
  states.foldl (fun c st => cacheSet c st.entity_id st) cache

/-- The `state_changed` branch of `HassCore.__all_events_callback`: inside a
try block it processes the state change and publishes the composite
`state_changed=<entity_id>` event; exceptions there are caught and logged;
the generic `state_changed` event is published afterwards in either case.
Returns the cache and the list of locally published event names. -/
def allEventsCallbackStateChanged (cache : EntityCache)
    (ev : StateChangedData) : EntityCache × List String :=
  match processStateChanged cache ev with
  | .ok c => (c, ["state_changed=" ++ ev.entity_id, "state_changed"])
  | .error _ => (cache, ["state_changed"])

/-- Result of one invocation of the transient listener created by
`HassPlugin.__wait_for_state_to_be_implementation`. -/
inductive WaitStep where
  | resolved
  | stillPending
deriving DecidableEq, Repr

/-- The body of `state_callback` in
`HassPlugin.__wait_for_state_to_be_implementation`, with the scheduling made
explicit: `entrySnap` is the cached full state read when the callback fires
at instant `entryNow`; when a sleep is needed the model computes the wake-up
instant `entryNow + (duration - time_in_current_state) + 500ms` exactly as
the source does, and `recheckSnap` is the cached full state read at that
wake-up instant.  `futureDone` is the `future.done()` test. -/
def waitStateCallback (states : List HassValue) (duration : Option Interval)
    (futureDone : Bool) (newValue : HassValue)
    (entrySnap : EntityState) (entryNow : Int)
    (recheckSnap : EntityState) : Except String WaitStep :=
  if newValue ∈ states ∧ ¬ futureDone then
    match duration with
    | none => .ok .resolved
    | some d =>
        (entrySnap.hasBeenInCurrentStateForAtLeast d entryNow).bind
          (fun alreadyHeld =>
            if alreadyHeld then .ok .resolved
            else
              let sleepMs := d.toTimedeltaMs - (entryNow - entrySnap.last_changed) + 500
              let recheckNow := entryNow + sleepMs
              (recheckSnap.hasBeenInCurrentStateForAtLeast d recheckNow).map
                (fun heldNow => if heldNow then .resolved else .stillPending))
  else .ok .stillPending

/-- A raw Home Assistant state dict as seen by the listener callback in
`CallbacksPlugin.listen_attribute_extended` (the `old_state` and `new_state`
values of the `state_changed` payload): the `state` key may be missing, and
the `attributes` dict may lack any given key. -/
structure StateDict where
  state : Option HassValue := none
  attributes : List (String × HassValue) := []
deriving DecidableEq, Repr

/-- Attribute lookup with a `None` default, as in
`old_state.get("attributes", ...).get(attribute, None)`. -/
def StateDict.getAttr (d : StateDict) (attr : String) : Option HassValue :=
  (d.attributes.find? (fun p => p.1 = attr)).map Prod.snd

/-- The `event_data` passed to `listen_attribute_callback`: either state may
be missing or null. -/
structure AttrEventData where
  entity_id : EntityID
  old_state : Option StateDict := none
  new_state : Option StateDict := none
deriving DecidableEq, Repr

/-- A value handed to the user callback as `old` or `new`: the full state
dict for attribute `all`, otherwise a primitive-or-missing value. -/
inductive AttrCallbackValue where
  | dict (d : StateDict)
  | prim (v : Option HassValue)
deriving DecidableEq, Repr

/-- The gating logic of `listen_attribute_callback` in
`CallbacksPlugin.listen_attribute_extended`: returns the `(old, new)` pair
passed on to the user callback, or `none` when delivery is dropped.  A
missing or null state dict is replaced by an empty dict first, mirroring
`event_data.get(..., ...) or ...` in the source. -/
def listenAttributeCallbackGate (attrName : String) (ev : AttrEventData) :
    Option (AttrCallbackValue × AttrCallbackValue) :=
  let new_state := ev.new_state.getD ⟨none, []⟩
  let old_state := ev.old_state.getD ⟨none, []⟩
  if attrName = "all" then
    some (.dict old_state, .dict new_state)
  else if attrName = "state" then
    let old_value := old_state.state
    let new_value := new_state.state
    if old_value = new_value then none
    else some (.prim old_value, .prim new_value)
  else
    let old_value := old_state.getAttr attrName
    let new_value := new_state.getAttr attrName
    if old_value = new_value then none
    else some (.prim old_value, .prim new_value)

/-- The delivery condition in the words of the specification: `listen_state`
delivers iff the old primitive state differs from the new one;
`listen_attribute(attr)` delivers iff the old value of `attributes[attr]`
differs from the new one, a missing attribute or a missing old or new state
comparing as `None`; `listen_attribute("all")` delivers unconditionally. -/
def specListenDelivery (attrName : String) (ev : AttrEventData) : Bool :=
  if attrName = "all" then true
  else if attrName = "state" then
    decide (ev.old_state.bind StateDict.state ≠ ev.new_state.bind StateDict.state)
  else
    decide
      (ev.old_state.bind (fun d => d.getAttr attrName) ≠
        ev.new_state.bind (fun d => d.getAttr attrName))

/-- Outcome of a scheduler registration call in `CallbacksPlugin`. -/
inductive SchedulerOutcome where
  | registered
  | schedulerError (msg : String)
deriving DecidableEq, Repr

/-- `CallbacksPlugin.run_at` with the current instant in the configured
timezone passed explicitly: a target strictly in the past raises
`DomovoySchedulerError`, anything else reaches
`register.add_scheduler_callback`. -/
def runAt (currentDate : Int) (target : Int) : SchedulerOutcome :=
  if target < currentDate then
    .schedulerError "Cannot schedule a callback in the past"
  else .registered

/-- The validation in `CallbacksPlugin.run_every`: an interval that
`Interval.is_valid` rejects raises `DomovoySchedulerError` before any
registration; otherwise the callback reaches
`register.add_scheduler_callback`. -/
def runEvery (interval : Interval) : SchedulerOutcome :=
  if ¬ interval.is_valid then
    .schedulerError "Cannot schedule a callback with an empty interval"
  else .registered

/-- App lifecycle statuses (`AppStatus` in `core/app_infra.py`). -/
inductive AppStatus where
  | created
  | initializing
  | running
  | finalizing
  | terminated
  | failed
deriving DecidableEq, Repr

/-- The status-relevant part of an `AppWrapper`: the current status together
with the full history of statuses ever assigned to it. -/
structure AppWrapperModel where
  status : AppStatus
  statusTrace : List AppStatus
deriving DecidableEq, Repr

/-- Assignment `wrapper.status = s`. -/
def AppWrapperModel.setStatus (w : AppWrapperModel) (s : AppStatus) :
    AppWrapperModel :=
  { status := s, statusTrace := w.statusTrace ++ [s] }

/-- `AppEngine.__initialize_app`: set INITIALIZING, run `initialize()`
(outcome given by `initRaises`); on error set FAILED and re-raise (second
component `true`), on success set RUNNING and flush registrations. -/
def initializeApp (w : AppWrapperModel) (initRaises : Bool) :
    AppWrapperModel × Bool :=
  let w := w.setStatus .initializing
  if initRaises then (w.setStatus .failed, true)
  else (w.setStatus .running, false)

/-- `AppEngine.__finalize_app`: `finalize()` errors are caught and logged;
the returned value is the logged message, which the caller discards. -/
def finalizeApp (finalizeRaises : Bool) : Option String :=
  if finalizeRaises then some "Error while calling finalize() for app" else none

/-- `AppEngine.__terminate_app` acting on `registration.active_instance`:
a missing instance only logs; otherwise callbacks are cancelled, the status
goes FINALIZING, `finalize()` runs with any error swallowed, the status goes
TERMINATED and the active instance is cleared.  The second component is the
detached wrapper after termination, kept so its trace stays observable. -/
def terminateApp (finalizeRaises : Bool) :
    Option AppWrapperModel → Option AppWrapperModel × Option AppWrapperModel
  | none => (none, none)
  | some w =>
      let w := w.setStatus .finalizing
      let _loggedFinalizeError := finalizeApp finalizeRaises
      let w := w.setStatus .terminated
      (none, some w)

/-- `AppEngine.__start_app` for a fresh registration:
`__build_app_instance` creates the wrapper with status CREATED and stores it
as the active instance; `__initialize_app` runs; when it raises, the caught
exception triggers `__terminate_app` on the same registration.  Returns the
`active_instance` pointer after the call and the detached wrapper when
termination ran. -/
def startApp (initRaises finalizeRaises : Bool) :
    Option AppWrapperModel × Option AppWrapperModel :=
  let w : AppWrapperModel := { status := .created, statusTrace := [.created] }
  let (w, raised) := initializeApp w initRaises
  if raised then terminateApp finalizeRaises (some w)
  else (some w, none)

/-- An outbound websocket command (`HassData` dict): the `type` key plus the
`id` assigned by `__send_command` once sent. -/
structure Command where
  ctype : String
  id : Option Nat := none
deriving DecidableEq, Repr

/-- The `error` object of a result frame. -/
structure ErrorInfo where
  code : Int
  message : String
deriving DecidableEq, Repr

/-- A non-event frame received from Home Assistant, keeping the keys the
receiver inspects: `id`, the optional `error` object, the optional `success`
flag, and an optional top-level `message` key (read by the
`HassApiCommandError` constructor). -/
structure ResultFrame where
  id : Nat
  error : Option ErrorInfo := none
  success : Option Bool := none
  message : Option String := none
deriving DecidableEq, Repr

/-- Exceptions completing command futures (`hass/exceptions.py`), plus the
`InvalidStateError` asyncio raises when a finished future is completed
again. -/
inductive ApiException where
  | commandError (command_id : Nat) (code : Int) (message : String)
      (full_response : ResultFrame) (original_command : Command)
  | connectionError
  | invalidStateError
deriving DecidableEq, Repr

/-- The `HassApiCommandError` constructor: the stored message is
`full_response.get("message", message)`. -/
def mkCommandError (command_id : Nat) (code : Int) (message : String)
    (full_response : ResultFrame) (original_command : Command) : ApiException :=
  .commandError command_id code (full_response.message.getD message)
    full_response original_command

/-- An asyncio future for a command response. -/
inductive FutureState where
  | pending
  | doneResult (frame : ResultFrame)
  | doneError (e : ApiException)
deriving DecidableEq, Repr

/-- `future.done()`. -/
def FutureState.isDone : FutureState → Bool
  | .pending => false
  | _ => true

/-- The mutable state of a `HassWebsocketApi` instance.  Futures live in an
arena indexed by creation order; `in_flight_ops` maps an assigned op id to
the command and the index of its future, mirroring `__in_flight_ops`. -/
structure ApiState where
  current_op_id : Nat := 2
  in_flight_ops : List (Nat × Command × Nat) := []
  futures : List FutureState := []
  event_callbacks : List Nat := []
  cmd_queue : List Command := []
deriving DecidableEq, Repr

/-- `HassWebsocketApi.__send_command`: create a pending future, assign
`id := current_op_id`, record `(command, future)` in the in-flight map,
increment the counter, enqueue the command.  Returns the new state, the
assigned op id and the index of the future. -/
def sendCommand (st : ApiState) (cmd : Command) : ApiState × Nat × Nat :=
  let fid := st.futures.length
  let opId := st.current_op_id
  let cmd := { cmd with id := some opId }
  ({ st with
      futures := st.futures ++ [.pending],
      in_flight_ops := st.in_flight_ops ++ [(opId, cmd, fid)],
      current_op_id := st.current_op_id + 1,
      cmd_queue := st.cmd_queue ++ [cmd] },
   opId, fid)

/-- Lookup of `message_id` in the in-flight map. -/
def lookupOp : List (Nat × Command × Nat) → Nat → Option (Command × Nat)
  | [], _ => none
  | (k, cmd, fid) :: rest, msgId =>
      if k = msgId then some (cmd, fid) else lookupOp rest msgId

/-- `dict.pop(message_id)` on the in-flight map (the key is known present). -/
def removeOp (ops : List (Nat × Command × Nat)) (msgId : Nat) :
    List (Nat × Command × Nat) :=
  ops.filter (fun e => e.1 ≠ msgId)

/-- The shape of an inbound `event` frame payload: a real event (it contains
`event_type`) or a trigger notification (it contains `variables`). -/
inductive EventPayload where
  | event (event_type : String)
  | trigger
deriving DecidableEq, Repr

/-- An inbound frame as the receiver classifies it. -/
inductive InMessage where
  | event (id : Nat) (payload : EventPayload)
  | result (frame : ResultFrame)
deriving DecidableEq, Repr

/-- How the dispatched subscription callback behaves under
`asyncio.wait_for(..., timeout=5)`: normal return, cancellation, timeout, or
an exception of any other kind. -/
inductive CallbackOutcome where
  | ok
  | cancelled
  | timedOut
  | raised
deriving DecidableEq, Repr

/-- Outcome of processing one inbound frame in
`HassWebsocketApi.hass_message_receiver`: either the loop continues with the
next frame, or an exception escaped the loop body, in which case the outer
handler logs it and the receiver task returns (tearing the connection). -/
inductive ReceiverStep where
  | next (st : ApiState)
  | stopped (st : ApiState)
deriving DecidableEq, Repr

/-- The state carried by a receiver step. -/
def ReceiverStep.state : ReceiverStep → ApiState
  | .next st => st
  | .stopped st => st

/-- One iteration of the `async for` loop in
`HassWebsocketApi.hass_message_receiver`.  `cb` gives the behaviour of the
subscription callback registered for a given id.  Event frames: an
unregistered id is skipped; a cancellation or timeout of the callback is
logged and the loop continues; any other exception is logged and re-raised.
Result frames: an unknown id is skipped; the op is popped; a finished future
is skipped; an `error` field completes the future with a command error; a
false `success` flag without `error` completes the future with a code -1
command error, after which the unconditional `future.set_result` call raises
`InvalidStateError`; otherwise the frame becomes the result. -/
def handleMessage (cb : Nat → CallbackOutcome) (st : ApiState)
    (msg : InMessage) : ReceiverStep :=
  match msg with
  | .event msgId _payload =>
      if msgId ∉ st.event_callbacks then .next st
      else
        match cb msgId with
        | .ok => .next st
        | .cancelled => .next st
        | .timedOut => .next st
        | .raised => .stopped st
  | .result frame =>
      match lookupOp st.in_flight_ops frame.id with
      | none => .next st
      | some (cmd, fid) =>
          let st := { st with in_flight_ops := removeOp st.in_flight_ops frame.id }
          match st.futures.get? fid with
          | none => .next st
          | some fut =>
              if fut.isDone then .next st
              else
                match frame.error with
                | some err =>
                    .next { st with
                      futures := st.futures.set fid
                        (.doneError (mkCommandError frame.id err.code err.message frame cmd)) }
                | none =>
                    if frame.success = some false then
                      .stopped { st with
                        futures := st.futures.set fid
                          (.doneError (mkCommandError frame.id (-1)
                            "Command Failed but Home Assistant did not send an specific error message"
                            frame cmd)) }
                    else
                      .next { st with futures := st.futures.set fid (.doneResult frame) }

/-- The cleanup loop in `HassWebsocketApi.__connect_and_listen` that runs
after the reader and writer tasks finish: every op still in the in-flight
map is popped and, when its future is not yet done, the future is failed
with `HassApiConnectionError`. -/
def failPendingOpsAux : List (Nat × Command × Nat) → List FutureState →
    List FutureState
  | [], futs => futs
  | (_, _, fid) :: rest, futs =>
      let futs :=
        match futs.get? fid with
        | some .pending => futs.set fid (.doneError .connectionError)
        | _ => futs
      failPendingOpsAux rest futs

/-- Disconnect resolution: the whole in-flight map is drained. -/
def failPendingOps (st : ApiState) : ApiState :=
  { st with
      futures := failPendingOpsAux st.in_flight_ops st.futures,
      in_flight_ops := [] }

/-- Result of one underlying `HassCore.call_service` invocation: success
with an opaque optional payload, or a `HassApiCommandError` carrying the
given message. -/
inductive SvcResult where
  | ok (payload : Option String)
  | err (message : String)
deriving DecidableEq, Repr

/-- One call reaching `HassCore.call_service` from the facade: the parsed
domain and service, the service data (its optional `entity_id` key kept
apart from the remaining opaque keys), the target entity id and the
`return_response` flag. -/
structure UnderlyingCall where
  domain : String
  service : String
  data_entity_id : Option EntityID := none
  data_rest : List (String × String) := []
  target : Option EntityID := none
  return_response : Bool := false
deriving DecidableEq, Repr

/-- The keyword arguments of `HassPlugin.call_service` that its body
inspects, plus the remaining opaque service-data keys.  A present
`entity_id` key is assumed well typed (the type-check branch that logs and
returns on a malformed value is not modelled). -/
structure CsKwargs where
  entity_id : Option EntityID := none
  domovoy_drop_target : Option Bool := none
  service_data_entity_id : Option EntityID := none
  rest : List (String × String) := []
deriving DecidableEq, Repr

/-- Outcome of `HassPlugin.call_service`: a returned payload, the logged
invalid-name path, a re-raised command error, a logged-and-swallowed
command error, or exhaustion of the scripted responses. -/
inductive CsOutcome where
  | ok (payload : Option String)
  | invalidServiceName
  | raised (message : String)
  | loggedError (message : String)
  | noResponse
deriving DecidableEq, Repr

/-- The error message that triggers the automatic retry. -/
def retryTriggerMessage : String :=
  "Service call requires responses but caller did not ask for responses"

/-- Helper for `pySplitDot`, walking the character list with the reversed
current segment. -/
def splitDotAux : List Char → List Char → List String
  | [], acc => [String.mk acc.reverse]
  | c :: rest, acc =>
      if c = Char.ofNat 46 then String.mk acc.reverse :: splitDotAux rest []
      else splitDotAux rest (c :: acc)

/-- The Python expression `service_name.split(".")`: split on every dot,
keeping empty segments. -/
def pySplitDot (s : String) : List String := splitDotAux s.toList []

/-- Whether the `entity_id` kwarg is popped and used as the call target:
it must be present, and `domovoy_drop_target` must be absent or falsy. -/
def csExtractTarget (kw : CsKwargs) : Bool :=
  kw.entity_id.isSome &&
    (kw.domovoy_drop_target = none || kw.domovoy_drop_target = some false)

/-- The `entity_id` key left inside the service data after the pops:
`service_data_entity_id` is written back as `entity_id` when present,
otherwise the original `entity_id` kwarg survives only when it was not
extracted as the target. -/
def csDataEntity (kw : CsKwargs) : Option EntityID :=
  match kw.service_data_entity_id with
  | some v => some v
  | none => if csExtractTarget kw then none else kw.entity_id

/-- The target passed to the underlying call. -/
def csTarget (kw : CsKwargs) : Option EntityID :=
  if csExtractTarget kw then kw.entity_id else none

/-- The underlying call built from one pass through the facade body. -/
def csCall (domain service : String) (kw : CsKwargs) (rr : Bool) :
    UnderlyingCall :=
  { domain := domain, service := service, data_entity_id := csDataEntity kw,
    data_rest := kw.rest, target := csTarget kw, return_response := rr }

/-- The kwargs dict as it stands when the retry re-invokes `call_service`:
target and flag keys have been popped, so only the service-data keys
remain. -/
def csRetryKwargs (kw : CsKwargs) : CsKwargs :=
  { entity_id := csDataEntity kw, rest := kw.rest }

/-- `HassPlugin.call_service`, with the results of successive underlying
`HassCore.call_service` invocations scripted by `oracle` (head first).
An invalid service name logs and returns `None` with no call; otherwise the
underlying call is made and: on a command error, the error is re-raised
when `throw_on_error` is set or the app status is INITIALIZING; when the
error message equals `retryTriggerMessage`, the facade re-invokes itself
with `return_response=True` and the remaining kwargs; any other error is
logged and `None` is returned.  Returns the list of underlying calls made
and the outcome. -/
def callServiceGo (statusInitializing : Bool) (domain service : String) :
    List SvcResult → Bool → Bool → CsKwargs → List UnderlyingCall × CsOutcome
  | [], returnResponse, _, kw =>
      ([csCall domain service kw returnResponse], .noResponse)
  | .ok payload :: _, returnResponse, _, kw =>
      ([csCall domain service kw returnResponse], .ok payload)
  | .err msg :: restOracle, returnResponse, throwOnError, kw =>
      let call := csCall domain service kw returnResponse
      if throwOnError || statusInitializing then ([call], .raised msg)
      else if msg = retryTriggerMessage then
        let next := callServiceGo statusInitializing domain service restOracle
          true throwOnError (csRetryKwargs kw)
        (call :: next.1, next.2)
      else ([call], .loggedError msg)

/-- Entry point: service names are `domain.service`; anything else is the
logged invalid-name path. -/
def callService (oracle : List SvcResult) (statusInitializing : Bool)
    (serviceName : String) (returnResponse : Bool) (throwOnError : Bool)
    (kw : CsKwargs) : List UnderlyingCall × CsOutcome :=
  match pySplitDot serviceName with
  | [domain, service] =>
      callServiceGo statusInitializing domain service oracle returnResponse
        throwOnError kw
  | _ => ([], .invalidServiceName)

end Domovoy

namespace Domovoy

/-- C1: the `state_changed` path keeps the newer snapshot when a stale update
arrives, but the bulk load of `setup()` overwrites the cache unconditionally:
starting from a cache holding `light.k` with `last_updated = 10`, loading a
`get_states` snapshot with `last_updated = 5` leaves the cache at `5`,
breaking the strictly-increasing `last_updated` invariant that the guarded
path enforces (second conjunct). -/
theorem c1_setup_bulk_load_breaks_cache_monotonicity :
    (cacheGet
        (setupLoadStates [("light.k", ⟨"light.k", .str "on", 0, 10, []⟩)]
          [⟨"light.k", .str "off", 0, 5, []⟩])
        "light.k").map EntityState.last_updated = some 5 ∧
    processStateChanged [("light.k", ⟨"light.k", .str "on", 0, 10, []⟩)]
        ⟨"light.k", none, some ⟨"light.k", .str "off", 0, 5, []⟩⟩ =
      .ok [("light.k", ⟨"light.k", .str "on", 0, 10, []⟩)] := by
  constructor
  · rfl
  · rfl

/-- Helper: a missing key makes the unguarded pop raise. -/
theorem cachePop_eq_none_of_get_none (c : EntityCache) (eid : EntityID)
    (h : cacheGet c eid = none) : cachePop c eid = none := by
  induction c with
  | nil => rfl
  | cons hd tl ih =>
      obtain ⟨k, v⟩ := hd
      by_cases hk : k = eid
      · exfalso
        simp [cacheGet, List.find?, hk] at h
      · simp only [cacheGet, List.find?] at h
        rw [show (decide (k = eid)) = false from by simp [hk]] at h
        simp only [cachePop, if_neg hk]
        rw [ih h]
        rfl

/-- C10: a `state_changed` event with `new_state = None` for an entity absent
from the cache makes the eviction raise `KeyError`; the handler catches it,
so the composite `state_changed=<entity_id>` event is not published, while
the generic `state_changed` event still is, and the cache is unchanged. -/
theorem c10_evict_uncached_entity_raises_and_skips_composite_event
    (cache : EntityCache) (ev : StateChangedData)
    (hnew : ev.new_state = none) (habs : cacheGet cache ev.entity_id = none) :
    processStateChanged cache ev = .error (.keyError ev.entity_id) ∧
    allEventsCallbackStateChanged cache ev = (cache, ["state_changed"]) := by
  have hpop := cachePop_eq_none_of_get_none cache ev.entity_id habs
  have hproc : processStateChanged cache ev = .error (.keyError ev.entity_id) := by
    unfold processStateChanged
    rw [hnew, hpop]
  refine ⟨hproc, ?_⟩
  unfold allEventsCallbackStateChanged
  rw [hproc]

/-- C4: evaluation of the duration wait at a failing input.  With target
states `["on"]` and duration 5 s, the entity enters `on` at t = 0 and the
listener fires at t = 0; the sleep lasts 5.5 s; during it the entity flips
to `off` at t = 0.3 s.  The re-check only asks whether the entity has been
in its then-current state (`off`) for 5 s, which holds at t = 5.5 s, so the
wait resolves (first conjunct) although the current state is not one of the
target states (second conjunct) and the entity has not been in a target
state for the duration at resolution time (third conjunct). -/
theorem c4_duration_wait_resolves_outside_target_states :
    waitStateCallback [.str "on"] (some ⟨0, 0, 0, 5, 0⟩) false (.str "on")
        ⟨"light.k", .str "on", 0, 0, []⟩ 0
        ⟨"light.k", .str "off", 300, 300, []⟩ = .ok .resolved ∧
    (HassValue.str "off" ∉ [HassValue.str "on"]) ∧
    EntityState.hasBeenInStateForAtLeast ⟨"light.k", .str "off", 300, 300, []⟩
        [.str "on"] ⟨0, 0, 0, 5, 0⟩ 5500 = .ok false := by
  refine ⟨?_, by decide, ?_⟩
  · decide
  · decide

/-- C5 counterexample: when `initialize()` raises, the wrapper does not stay
in FAILED: `__start_app` calls `__terminate_app`, so the very same instance
moves on to FINALIZING and TERMINATED (its final status is TERMINATED, not
FAILED), refuting that FAILED is terminal. -/
theorem c5_counterexample_failed_is_not_terminal :
    (startApp true false).2 =
      some ⟨.terminated,
        [.created, .initializing, .failed, .finalizing, .terminated]⟩ ∧
    (startApp true false).2.map AppWrapperModel.status ≠ some .failed := by
  decide

/-- C5 amended: when `initialize()` raises, the status is set to FAILED and
the app never reaches RUNNING, but FAILED is not terminal: `__start_app`
then invokes `__terminate_app`, which moves the instance through FINALIZING
to TERMINATED (whether or not `finalize()` raises) and clears the active
instance. -/
theorem c5_amended_failed_app_is_terminated :
    ∀ finalizeRaises : Bool,
      startApp true finalizeRaises =
        (none, some ⟨.terminated,
          [.created, .initializing, .failed, .finalizing, .terminated]⟩) ∧
      AppStatus.running ∉
        [AppStatus.created, .initializing, .failed, .finalizing, .terminated] := by
  decide

/-- C7: the gating of `listen_attribute_extended` agrees with the
specification on every attribute and every event payload: for `state` the
callback is invoked iff the old primitive state differs from the new one,
for any other attribute (except `all`) iff the value of that attribute
differs, a missing attribute or missing old or new state comparing as
`None`, and for `all` unconditionally. -/
theorem c7_listen_attribute_gating_matches_spec :
    ∀ (attrName : String) (ev : AttrEventData),
      (listenAttributeCallbackGate attrName ev).isSome =
        specListenDelivery attrName ev := by
  intro attrName ev
  unfold listenAttributeCallbackGate specListenDelivery
  have hold : (ev.old_state.getD ⟨none, []⟩).state = ev.old_state.bind StateDict.state := by
    cases ev.old_state <;> rfl
  have hnew : (ev.new_state.getD ⟨none, []⟩).state = ev.new_state.bind StateDict.state := by
    cases ev.new_state <;> rfl
  have holda : ∀ a, (ev.old_state.getD ⟨none, []⟩).getAttr a =
      ev.old_state.bind (fun d => d.getAttr a) := by
    intro a
    cases ev.old_state <;> rfl
  have hnewa : ∀ a, (ev.new_state.getD ⟨none, []⟩).getAttr a =
      ev.new_state.bind (fun d => d.getAttr a) := by
    intro a
    cases ev.new_state <;> rfl
  by_cases hall : attrName = "all"
  · simp [hall]
  · by_cases hstate : attrName = "state"
    · simp only [hall, hstate, if_true, if_false, hold, hnew]
      by_cases h : ev.old_state.bind StateDict.state = ev.new_state.bind StateDict.state <;>
        simp [h]
    · simp only [hall, hstate, if_false, holda, hnewa]
      by_cases h : ev.old_state.bind (fun d => d.getAttr attrName) =
          ev.new_state.bind (fun d => d.getAttr attrName) <;>
        simp [h]

/-- C9: `run_at` raises a `DomovoySchedulerError` exactly for a target
strictly earlier than the current time, and otherwise registers; `run_every`
raises exactly for an interval whose components are all zero, and registers
any interval with at least one non-zero component. -/
theorem c9_scheduler_argument_validation :
    (∀ currentDate target : Int,
      (target < currentDate →
        runAt currentDate target =
          .schedulerError "Cannot schedule a callback in the past") ∧
      (¬ target < currentDate → runAt currentDate target = .registered)) ∧
    (∀ i : Interval,
      (i.days = 0 ∧ i.hours = 0 ∧ i.minutes = 0 ∧ i.seconds = 0 ∧
          i.milliseconds = 0 →
        runEvery i =
          .schedulerError "Cannot schedule a callback with an empty interval") ∧
      (i.days ≠ 0 ∨ i.hours ≠ 0 ∨ i.minutes ≠ 0 ∨ i.seconds ≠ 0 ∨
          i.milliseconds ≠ 0 →
        runEvery i = .registered)) := by
  constructor
  · intro currentDate target
    constructor
    · intro h
      simp [runAt, h]
    · intro h
      simp [runAt, h]
  · intro i
    constructor
    · rintro ⟨h1, h2, h3, h4, h5⟩
      simp [runEvery, Interval.is_valid, h1, h2, h3, h4, h5]
    · intro h
      have hvalid : i.is_valid = true := by
        simp only [Interval.is_valid, Bool.or_eq_true, bne_iff_ne, ne_eq]
        tauto
      simp [runEvery, hvalid]

/-- Witness for C9: a past target raises, an exactly-current target
registers, the all-zero interval raises, a one-second interval registers. -/
theorem c9_scheduler_argument_validation_witness :
    runAt 100 50 = .schedulerError "Cannot schedule a callback in the past" ∧
    runAt 100 100 = .registered ∧
    runEvery ⟨0, 0, 0, 0, 0⟩ =
      .schedulerError "Cannot schedule a callback with an empty interval" ∧
    runEvery ⟨0, 0, 0, 1, 0⟩ = .registered :=
  ⟨(c9_scheduler_argument_validation.1 100 50).1 (by decide),
   (c9_scheduler_argument_validation.1 100 100).2 (by decide),
   (c9_scheduler_argument_validation.2 ⟨0, 0, 0, 0, 0⟩).1 (by decide),
   (c9_scheduler_argument_validation.2 ⟨0, 0, 0, 1, 0⟩).2 (by decide)⟩

/-- Helper: setting one index leaves every other index unchanged. -/
theorem list_get?_set_ne {α : Type} (a : α) :
    ∀ (l : List α) (i j : Nat), i ≠ j → (l.set i a).get? j = l.get? j
  | [], _, _, _ => rfl
  | _ :: _, 0, 0, h => absurd rfl h
  | _ :: _, 0, _ + 1, _ => rfl
  | _ :: _, _ + 1, 0, _ => rfl
  | _ :: xs, i + 1, j + 1, h =>
      list_get?_set_ne a xs i j (fun hh => h (by rw [hh]))

/-- Helper: setting an in-range index stores the new value there. -/
theorem list_get?_set_self {α : Type} (a : α) :
    ∀ (l : List α) (i : Nat), i < l.length → (l.set i a).get? i = some a
  | [], _, h => absurd h (by simp)
  | _ :: _, 0, _ => rfl
  | _ :: xs, i + 1, h => list_get?_set_self a xs i (Nat.lt_of_succ_lt_succ h)

/-- Helper: a successful lookup implies the index is in range. -/
theorem list_get?_some_lt {α : Type} :
    ∀ (l : List α) (i : Nat) (v : α), l.get? i = some v → i < l.length
  | [], i, v, h => by simp [List.get?] at h
  | _ :: _, 0, _, _ => Nat.succ_pos _
  | _ :: xs, i + 1, v, h =>
      Nat.succ_lt_succ (list_get?_some_lt xs i v h)

/-- Helper: the disconnect cleanup never touches a future that is already
done. -/
theorem failPendingOpsAux_preserves_done :
    ∀ (ops : List (Nat × Command × Nat)) (futs : List FutureState)
      (fid : Nat) (v : FutureState),
      futs.get? fid = some v → v ≠ .pending →
      (failPendingOpsAux ops futs).get? fid = some v := by
  intro ops
  induction ops with
  | nil => intro futs fid v hv _; exact hv
  | cons hd tl ih =>
      intro futs fid v hv hnp
      obtain ⟨o, c, f⟩ := hd
      unfold failPendingOpsAux
      by_cases hf : f = fid
      · subst hf
        rw [hv]
        cases v with
        | pending => exact absurd rfl hnp
        | doneResult fr => exact ih futs f _ hv hnp
        | doneError e => exact ih futs f _ hv hnp
      · cases hfut : futs.get? f with
        | none => exact ih futs fid v hv hnp
        | some w =>
            cases w with
            | pending =>
                have hv2 : (futs.set f (.doneError .connectionError)).get? fid = some v := by
                  rw [list_get?_set_ne _ futs f fid hf]; exact hv
                exact ih _ fid v hv2 hnp
            | doneResult fr => exact ih futs fid v hv hnp
            | doneError e => exact ih futs fid v hv hnp

/-- Helper: the disconnect cleanup fails every pending in-flight future with
the connection-lost error. -/
theorem failPendingOpsAux_fails_pending :
    ∀ (ops : List (Nat × Command × Nat)) (futs : List FutureState)
      (opId : Nat) (cmd : Command) (fid : Nat),
      (opId, cmd, fid) ∈ ops → futs.get? fid = some .pending →
      (failPendingOpsAux ops futs).get? fid =
        some (.doneError .connectionError) := by
  intro ops
  induction ops with
  | nil => intro futs opId cmd fid hmem _; cases hmem
  | cons hd tl ih =>
      intro futs opId cmd fid hmem hpend
      obtain ⟨o, c, f⟩ := hd
      unfold failPendingOpsAux
      rcases List.mem_cons.mp hmem with heq | htail
      · have hf : f = fid := by
          have := congrArg (fun t : Nat × Command × Nat => t.2.2) heq
          simpa using this.symm
        subst hf
        rw [hpend]
        have hlt : f < futs.length := list_get?_some_lt futs f _ hpend
        have hset : (futs.set f (.doneError .connectionError)).get? f =
            some (.doneError .connectionError) := by
          rw [list_get?_set_self _ futs f hlt]
        exact failPendingOpsAux_preserves_done tl _ f _ hset (by simp)
      · by_cases hf : f = fid
        · subst hf
          rw [hpend]
          have hlt : f < futs.length := list_get?_some_lt futs f _ hpend
          have hset : (futs.set f (.doneError .connectionError)).get? f =
              some (.doneError .connectionError) := by
            rw [list_get?_set_self _ futs f hlt]
          exact failPendingOpsAux_preserves_done tl _ f _ hset (by simp)
        · cases hfut : futs.get? f with
          | none => exact ih futs opId cmd fid htail hpend
          | some w =>
              cases w with
              | pending =>
                  have hpend2 : (futs.set f (.doneError .connectionError)).get? fid =
                      some .pending := by
                    rw [list_get?_set_ne _ futs f fid hf]; exact hpend
                  exact ih _ opId cmd fid htail hpend2
              | doneResult fr => exact ih futs opId cmd fid htail hpend
              | doneError e => exact ih futs opId cmd fid htail hpend

/-- C2: op-id correlation and disconnect resolution.  First part:
`__send_command` assigns the current counter as the op id, increments the
counter, and records the command with its future in the in-flight map; when
every previously recorded id is below the counter, the assigned id is fresh
and the invariant is preserved.  Second part: the receiver completes a
future only when processing a result frame whose `id` is mapped to exactly
that future by the in-flight map.  Third part: the disconnect cleanup
empties the in-flight map and fails every still-pending in-flight future
with the connection-lost error. -/
theorem c2_op_id_correlation_and_disconnect_resolution :
    (∀ (st : ApiState) (cmd : Command),
      (sendCommand st cmd).2.1 = st.current_op_id ∧
      (sendCommand st cmd).1.current_op_id = st.current_op_id + 1 ∧
      (st.current_op_id, { cmd with id := some st.current_op_id },
        (sendCommand st cmd).2.2) ∈ (sendCommand st cmd).1.in_flight_ops ∧
      ((∀ e ∈ st.in_flight_ops, e.1 < st.current_op_id) →
        (∀ e ∈ st.in_flight_ops, e.1 ≠ (sendCommand st cmd).2.1) ∧
        (∀ e ∈ (sendCommand st cmd).1.in_flight_ops,
          e.1 < (sendCommand st cmd).1.current_op_id))) ∧
    (∀ (cb : Nat → CallbackOutcome) (st : ApiState) (msg : InMessage)
        (fid : Nat),
      (handleMessage cb st msg).state.futures.get? fid ≠ st.futures.get? fid →
      ∃ frame cmd, msg = .result frame ∧
        lookupOp st.in_flight_ops frame.id = some (cmd, fid)) ∧
    (∀ st : ApiState,
      (failPendingOps st).in_flight_ops = [] ∧
      ∀ (opId : Nat) (cmd : Command) (fid : Nat),
        (opId, cmd, fid) ∈ st.in_flight_ops →
        st.futures.get? fid = some .pending →
        (failPendingOps st).futures.get? fid =
          some (.doneError .connectionError)) := by
  refine ⟨?_, ?_, ?_⟩
  · intro st cmd
    refine ⟨rfl, rfl, ?_, ?_⟩
    · simp [sendCommand]
    · intro hinv
      constructor
      · intro e he
        exact Nat.ne_of_lt (hinv e he)
      · intro e he
        simp only [sendCommand, List.mem_append, List.mem_singleton] at he
        rcases he with he | he
        · exact Nat.lt_succ_of_lt (hinv e he)
        · subst he; exact Nat.lt_succ_self _
  · intro cb st msg fid hne
    cases msg with
    | event msgId payload =>
        exfalso
        apply hne
        simp only [handleMessage]
        by_cases hmem : msgId ∈ st.event_callbacks
        · rw [if_neg (not_not_intro hmem)]
          cases hcb : cb msgId <;> rfl
        · rw [if_pos hmem]
          rfl
    | result frame =>
        cases hop : lookupOp st.in_flight_ops frame.id with
        | none =>
            exfalso
            apply hne
            simp only [handleMessage]
            rw [hop]
            rfl
        | some p =>
            obtain ⟨cmd, fid0⟩ := p
            refine ⟨frame, cmd, rfl, ?_⟩
            by_cases hfid : fid0 = fid
            · rw [hfid] at hop; exact hop
            · exfalso
              apply hne
              simp only [handleMessage]
              rw [hop]
              dsimp only
              split
              · rfl
              · split
                · rfl
                · split
                  · exact list_get?_set_ne _ st.futures fid0 fid hfid
                  · split
                    · exact list_get?_set_ne _ st.futures fid0 fid hfid
                    · exact list_get?_set_ne _ st.futures fid0 fid hfid
  · intro st
    refine ⟨rfl, ?_⟩
    intro opId cmd fid hmem hpend
    exact failPendingOpsAux_fails_pending st.in_flight_ops st.futures opId cmd fid hmem hpend

/-- Witness for C2 at concrete inputs: completing the single in-flight op
with a matching response, and draining a one-op in-flight map on
disconnect. -/
theorem c2_op_id_correlation_witness :
    (∃ frame cmd,
      (InMessage.result ⟨2, none, some true, none⟩) = InMessage.result frame ∧
      lookupOp [(2, ⟨"ping", some 2⟩, 0)] frame.id = some (cmd, 0)) ∧
    (failPendingOps
        ⟨3, [(2, ⟨"ping", some 2⟩, 0)], [.pending], [], []⟩).futures.get? 0 =
      some (.doneError .connectionError) ∧
    (∀ e ∈ ([(2, ⟨"ping", some 2⟩, 0)] : List (Nat × Command × Nat)),
      e.1 ≠ (sendCommand ⟨3, [(2, ⟨"ping", some 2⟩, 0)], [.pending], [], []⟩
        ⟨"ping", none⟩).2.1) ∧
    (∀ e ∈ (sendCommand ⟨3, [(2, ⟨"ping", some 2⟩, 0)], [.pending], [], []⟩
        ⟨"ping", none⟩).1.in_flight_ops,
      e.1 < (sendCommand ⟨3, [(2, ⟨"ping", some 2⟩, 0)], [.pending], [], []⟩
        ⟨"ping", none⟩).1.current_op_id) := by
  refine ⟨?_, ?_, ?_⟩
  · exact c2_op_id_correlation_and_disconnect_resolution.2.1
      (fun _ => .ok)
      ⟨3, [(2, ⟨"ping", some 2⟩, 0)], [.pending], [], []⟩
      (.result ⟨2, none, some true, none⟩) 0 (by decide)
  · exact (c2_op_id_correlation_and_disconnect_resolution.2.2
      ⟨3, [(2, ⟨"ping", some 2⟩, 0)], [.pending], [], []⟩).2
      2 ⟨"ping", some 2⟩ 0 (by decide) (by decide)
  · exact (c2_op_id_correlation_and_disconnect_resolution.1
      ⟨3, [(2, ⟨"ping", some 2⟩, 0)], [.pending], [], []⟩
      ⟨"ping", none⟩).2.2.2 (by decide)

/-- C3 counterexample: an event frame whose registered callback raises a
non-cancellation exception makes the receiver loop stop (the logged
exception is re-raised, caught only by the outer handler, and the reader
task returns, tearing the connection): the step is `stopped`, never `next`,
refuting that a callback error lets the loop continue. -/
theorem c3_counterexample_callback_exception_stops_receiver :
    handleMessage (fun _ => .raised) ⟨2, [], [], [7], []⟩
        (.event 7 (.event "state_changed")) =
      .stopped ⟨2, [], [], [7], []⟩ ∧
    ∀ st : ApiState,
      handleMessage (fun _ => .raised) ⟨2, [], [], [7], []⟩
          (.event 7 (.event "state_changed")) ≠ ReceiverStep.next st := by
  have h1 : handleMessage (fun _ => .raised) ⟨2, [], [], [7], []⟩
      (.event 7 (.event "state_changed")) = .stopped ⟨2, [], [], [7], []⟩ := by
    decide
  refine ⟨h1, fun st h => ?_⟩
  rw [h1] at h
  exact ReceiverStep.noConfusion h

/-- C3 amended: for an inbound event frame with a registered callback, a
callback cancellation or a 5-second timeout is logged and the receiver
continues with the next frame and an unchanged state; any other callback
exception is logged and re-raised, stopping the receiver loop (which tears
the connection down); a normal return also continues. -/
theorem c3_amended_callback_fault_handling :
    ∀ (cb : Nat → CallbackOutcome) (st : ApiState) (msgId : Nat)
        (payload : EventPayload),
      msgId ∈ st.event_callbacks →
      ((cb msgId = .cancelled ∨ cb msgId = .timedOut) →
        handleMessage cb st (.event msgId payload) = .next st) ∧
      (cb msgId = .raised →
        handleMessage cb st (.event msgId payload) = .stopped st) ∧
      (cb msgId = .ok →
        handleMessage cb st (.event msgId payload) = .next st) := by
  intro cb st msgId payload hmem
  unfold handleMessage
  simp only [hmem, not_true_eq_false, if_false]
  refine ⟨?_, ?_, ?_⟩
  · rintro (h | h) <;> rw [h]
  · intro h; rw [h]
  · intro h; rw [h]

/-- Witness for C3 amended: a timed-out callback leaves the receiver
running with an unchanged state. -/
theorem c3_amended_callback_fault_handling_witness :
    handleMessage (fun _ => CallbackOutcome.timedOut) ⟨2, [], [], [7], []⟩
        (.event 7 .trigger) =
      .next ⟨2, [], [], [7], []⟩ :=
  (c3_amended_callback_fault_handling (fun _ => CallbackOutcome.timedOut)
    ⟨2, [], [], [7], []⟩ 7 .trigger (by decide)).1 (Or.inr rfl)

/-- C6: evaluation of the receiver at the two classifying inputs.  A frame
carrying an `error` object completes the future with a command error built
from the code, the message, the original command and the full response, and
the loop continues (first conjunct).  A frame carrying `success: false`
without `error` completes the future, exactly once, with a code -1 command
error, but the missing `continue` then lets `future.set_result` run on the
already-completed future, raising `InvalidStateError`, which escapes the
loop body and stops the receiver (second conjunct): processing does not
complete without raising. -/
theorem c6_response_classification_at_failing_input :
    handleMessage (fun _ => .ok)
        ⟨3, [(2, ⟨"call_service", some 2⟩, 0)], [.pending], [], []⟩
        (.result ⟨2, some ⟨5, "boom"⟩, some false, none⟩) =
      .next ⟨3, [],
        [.doneError (.commandError 2 5 "boom"
          ⟨2, some ⟨5, "boom"⟩, some false, none⟩ ⟨"call_service", some 2⟩)],
        [], []⟩ ∧
    handleMessage (fun _ => .ok)
        ⟨3, [(2, ⟨"call_service", some 2⟩, 0)], [.pending], [], []⟩
        (.result ⟨2, none, some false, none⟩) =
      .stopped ⟨3, [],
        [.doneError (.commandError 2 (-1)
          "Command Failed but Home Assistant did not send an specific error message"
          ⟨2, none, some false, none⟩ ⟨"call_service", some 2⟩)],
        [], []⟩ := by
  constructor
  · decide
  · decide

/-- C8 counterexample.  First conjunct: a `call_service` invocation with
`throw_on_error=True` that fails with the retry-trigger message performs no
retry at all (a single underlying call, error re-raised), so the claim does
not hold for every invocation.  Second conjunct: when the retry does happen
(`throw_on_error=False`), the retried call carries `return_response=True`
but its target is `none`, not the original `entity_id` target `light.k`,
because `entity_id` was popped from the kwargs the retry re-sends — the
other arguments are not all unchanged. -/
theorem c8_counterexample_retry_conditions_and_dropped_target :
    callService [.err retryTriggerMessage] false "light.turn_on" false true
        ⟨some "light.k", none, none, []⟩ =
      ([⟨"light", "turn_on", none, [], some "light.k", false⟩],
        .raised retryTriggerMessage) ∧
    callService [.err retryTriggerMessage, .ok none] false "light.turn_on"
        false false ⟨some "light.k", none, none, []⟩ =
      ([⟨"light", "turn_on", none, [], some "light.k", false⟩,
        ⟨"light", "turn_on", none, [], none, true⟩],
        .ok none) := by
  constructor
  · decide
  · decide

/-- C8 amended: when a `call_service` invocation fails with a command error,
(a) if `throw_on_error` is set or the app is INITIALIZING the error is
re-raised with no retry; (b) any error message other than the literal
retry-trigger message is logged with no retry and `None` returned; (c) when
the message equals the literal, `throw_on_error` is unset and the app is
not INITIALIZING, exactly one retry is performed with
`return_response=True`, the same domain, service and opaque service data —
but the retried call's target is whatever `entity_id` key remained in the
service data (`none` for a plain `entity_id` target, which is dropped). -/
theorem c8_amended_single_conditional_retry :
    (∀ (serviceName domain service msg : String) (kw : CsKwargs)
        (restOracle : List SvcResult) (rr throwOnError statusInit : Bool),
      pySplitDot serviceName = [domain, service] →
      (throwOnError || statusInit) = true →
      callService (.err msg :: restOracle) statusInit serviceName rr
          throwOnError kw =
        ([csCall domain service kw rr], .raised msg)) ∧
    (∀ (serviceName domain service msg : String) (kw : CsKwargs)
        (restOracle : List SvcResult) (rr : Bool),
      pySplitDot serviceName = [domain, service] →
      msg ≠ retryTriggerMessage →
      callService (.err msg :: restOracle) false serviceName rr false kw =
        ([csCall domain service kw rr], .loggedError msg)) ∧
    (∀ (serviceName domain service : String) (kw : CsKwargs)
        (payload : Option String) (restOracle : List SvcResult) (rr : Bool),
      pySplitDot serviceName = [domain, service] →
      ∃ c1 c2 : UnderlyingCall,
        callService (.err retryTriggerMessage :: .ok payload :: restOracle)
            false serviceName rr false kw = ([c1, c2], .ok payload) ∧
        c2.return_response = true ∧
        c2.domain = c1.domain ∧
        c2.service = c1.service ∧
        c2.data_rest = c1.data_rest ∧
        c2.target = c1.data_entity_id ∧
        c2.data_entity_id = none) := by
  refine ⟨?_, ?_, ?_⟩
  · intro serviceName domain service msg kw restOracle rr throwOnError statusInit hsplit hcond
    unfold callService
    rw [hsplit]
    unfold callServiceGo
    rw [hcond]
    rfl
  · intro serviceName domain service msg kw restOracle rr hsplit hmsg
    unfold callService
    rw [hsplit]
    unfold callServiceGo
    simp only [Bool.or_self, Bool.false_eq_true, if_false]
    rw [if_neg hmsg]
  · intro serviceName domain service kw payload restOracle rr hsplit
    refine ⟨csCall domain service kw rr,
      csCall domain service (csRetryKwargs kw) true, ?_, rfl, rfl, rfl, rfl, ?_, ?_⟩
    · unfold callService
      rw [hsplit]
      unfold callServiceGo
      simp only [Bool.or_self, Bool.false_eq_true, if_false, eq_self_iff_true,
        if_true]
      unfold callServiceGo
      rfl
    · show csTarget (csRetryKwargs kw) = csDataEntity kw
      unfold csTarget csExtractTarget csRetryKwargs
      cases h : csDataEntity kw <;> simp [h]
    · show csDataEntity (csRetryKwargs kw) = none
      unfold csDataEntity csExtractTarget csRetryKwargs
      cases h : csDataEntity kw <;> simp [h]

/-- Witness for C8 amended, at concrete inputs: a non-retrying invocation
while INITIALIZING, a non-matching error message that is only logged, and a
successful single retry whose second call asks for the response but carries
no target. -/
theorem c8_amended_single_conditional_retry_witness :
    callService [.err retryTriggerMessage] true "light.turn_on" false false
        ⟨some "light.k", none, none, []⟩ =
      ([csCall "light" "turn_on" ⟨some "light.k", none, none, []⟩ false],
        .raised retryTriggerMessage) ∧
    callService [.err "boom"] false "light.turn_on" false false
        ⟨some "light.k", none, none, []⟩ =
      ([csCall "light" "turn_on" ⟨some "light.k", none, none, []⟩ false],
        .loggedError "boom") ∧
    ∃ c1 c2 : UnderlyingCall,
      callService [.err retryTriggerMessage, .ok (some "resp")] false
          "light.turn_on" false false ⟨some "light.k", none, none, []⟩ =
        ([c1, c2], .ok (some "resp")) ∧
      c2.return_response = true ∧
      c2.domain = c1.domain ∧
      c2.service = c1.service ∧
      c2.data_rest = c1.data_rest ∧
      c2.target = c1.data_entity_id ∧
      c2.data_entity_id = none :=
  ⟨c8_amended_single_conditional_retry.1 "light.turn_on" "light" "turn_on"
      retryTriggerMessage ⟨some "light.k", none, none, []⟩ [] false false true
      (by decide) (by decide),
   c8_amended_single_conditional_retry.2.1 "light.turn_on" "light" "turn_on"
      "boom" ⟨some "light.k", none, none, []⟩ [] false (by decide) (by decide),
   c8_amended_single_conditional_retry.2.2 "light.turn_on" "light" "turn_on"
      ⟨some "light.k", none, none, []⟩ (some "resp") [] false (by decide)⟩

/-- Witness for C10 at a concrete input: an empty cache and an eviction event
for `light.k`. -/
theorem c10_evict_uncached_entity_witness :
    processStateChanged [] ⟨"light.k", none, none⟩ =
        .error (.keyError "light.k") ∧
    allEventsCallbackStateChanged [] ⟨"light.k", none, none⟩ =
        ([], ["state_changed"]) :=
  c10_evict_uncached_entity_raises_and_skips_composite_event [] ⟨"light.k", none, none⟩ rfl rfl

end Domovoy
